import Mathlib

/-!
Verification development for the font-pairing preview generator (`check.py`).

The script downloads Google web fonts into a local cache, renders "font
pairing" preview images (a header, a 2x2 grid of styled cards, a Telegram
QR block) and a comparison collage, and writes them as PNG files.

The shallow embedding below models:
  * the Python string primitives the script relies on (`str.lower`,
    `str.find`, slicing with negative indices, `str.strip`);
  * the `FontManager` class (font registry, CSS URL extraction, download
    with a local-cache short-circuit, `ensure_all_fonts`) with explicit
    state (which files exist, how many network requests were made) and
    oracles for the network and for font loading;
  * the drawing layer as a list of drawing operations emitted onto the
    target canvas (rounded rectangles, text, image pastes), with PIL text
    measurement (`textbbox`) abstracted as an oracle;
  * the page assembly (`create_font_preview`, `create_font_comparison`,
    `generate_all_previews`) at the level of written files and log events;
  * the Penrose background pattern's per-pixel alpha computation, with the
    polygon rasterization geometry (which uses trigonometry on floats)
    abstracted as a coverage predicate.

Python integer division `//` is `Int.fdiv` (floor), and Python `int()` on a
nonnegative float/rational is `Int.floor`; both are modelled explicitly.
-/

namespace FontPairing

/-! ### Python string primitives -/

/-- Python `str.lower()` (all font names in the script are ASCII). -/
def pyLower (s : String) : String :=
  String.mk (s.data.map Char.toLower)

/-- Index of the first suffix of `cs` that `sub` is a prefix of, if any.
Helper for Python `str.find`. -/
def findSubAux (sub : List Char) : List Char → Option ℕ
  | [] => if sub.isPrefixOf ([] : List Char) then some 0 else none
  | c :: rest =>
    if sub.isPrefixOf (c :: rest) then some 0
    else (findSubAux sub rest).map (· + 1)

/-- Python `s.find(sub, start)`: smallest index `i ≥ start` where `sub`
occurs in `s`, or `-1` when there is none. -/
def pyFind (s sub : String) (start : ℕ) : ℤ :=
  match findSubAux sub.data (s.data.drop start) with
  | some i => ((i + start : ℕ) : ℤ)
  | none => -1

/-- Clamp a (possibly negative) Python slice index into `[0, len]`. -/
def sliceIdx (len : ℕ) (i : ℤ) : ℕ :=
  if i < 0 then ((len : ℤ) + i).toNat else min i.toNat len

/-- Python `s[a:b]` with full negative-index semantics. -/
def pySlice (s : String) (a b : ℤ) : String :=
  let n := s.length
  let lo := sliceIdx n a
  let hi := sliceIdx n b
  String.mk ((s.data.drop lo).take (hi - lo))

/-- Python `s.strip(chars)`: remove the given characters from both ends. -/
def pyStrip (s : String) (chars : List Char) : String :=
  String.mk (((s.data.dropWhile (· ∈ chars)).reverse.dropWhile
    (· ∈ chars)).reverse)

/-- The characters stripped by `strip("'\"")` in `get_ttf_url`:
apostrophe (39) and double quote (34). -/
def quote_chars : List Char := [Char.ofNat 39, Char.ofNat 34]

/-- URL extraction step of `FontManager.get_ttf_url` (`check.py` lines
47-52), applied to the fetched stylesheet text: take the substring between
the first occurrence of `url(` and the following closing parenthesis and
strip quotes.  `url_start` is at least `3` (it is `find + 4` with
`find ≥ -1`), so the `toNat` coercion in the second `find`'s start
argument is faithful. -/
def extract_font_url (css : String) : String :=
  let url_start : ℤ := pyFind css "url(" 0 + 4
  let url_end : ℤ := pyFind css ")" url_start.toNat
  pyStrip (pySlice css url_start url_end) quote_chars

/-! ### FontManager: registry, download, ensure_all_fonts -/

/-- The `fonts_data` registry of `FontManager.__init__` (`check.py` lines
11-32): font name, CSS stylesheet URL, local filename. -/
def fonts_data : List (String × String × String) :=
  [("SpaceGrotesk",
    "https://fonts.googleapis.com/css2?family=Space+Grotesk:wght@500&display=swap",
    "spacegrotesk.ttf"),
   ("Inter",
    "https://fonts.googleapis.com/css2?family=Inter&display=swap",
    "inter.ttf"),
   ("Outfit",
    "https://fonts.googleapis.com/css2?family=Outfit&display=swap",
    "outfit.ttf"),
   ("DMSans",
    "https://fonts.googleapis.com/css2?family=DM+Sans&display=swap",
    "dmsans.ttf"),
   ("PublicSans",
    "https://fonts.googleapis.com/css2?family=Public+Sans&display=swap",
    "publicsans.ttf")]

/-- Python dict lookup `self.fonts_data[font_name]`. -/
def lookupFont (font_name : String) : Option (String × String × String) :=
  fonts_data.find? (fun fd => fd.1 == font_name)

/-- Environment oracles: whether `ImageFont.truetype` succeeds on the file
at a path, and what the two kinds of HTTP GET return (`none` models a
network error or a non-2xx status, which `raise_for_status` turns into an
exception). -/
structure Oracles where
  loads : String → Bool
  cssOf : String → Option String
  ttfOf : String → Option Unit

/-- Mutable world state threaded through the font manager: which files
exist (`os.path.exists`) and how many network requests have been made. -/
structure St where
  files : String → Bool
  requests : ℕ

/-- Python `os.path.join` for the two-argument uses in the script. -/
def osJoin (a b : String) : String := a ++ "/" ++ b

/-- `FontManager.get_ttf_url` (`check.py` lines 37-52): one HTTP GET of the
stylesheet (counted even on failure), then the substring extraction.
`none` models the request's exception propagating to the caller. -/
def get_ttf_url (o : Oracles) (st : St) (css_url : String) :
    St × Option String :=
  let st1 : St := { st with requests := st.requests + 1 }
  match o.cssOf css_url with
  | none => (st1, none)
  | some css => (st1, some (extract_font_url css))

/-- `FontManager.download_font` (`check.py` lines 54-86).  If the cached
file exists the path is returned with no network activity; otherwise the
stylesheet is fetched, the TTF URL extracted, the TTF fetched, and the file
written.  Any exception inside the `try` is caught and `None` returned.
The unknown-name case would be an uncaught `KeyError` in the source; it is
unreachable from the program's call sites and modelled as a bare failure. -/
def download_font (o : Oracles) (st : St) (fonts_dir font_name : String) :
    St × Option String :=
  match lookupFont font_name with
  | none => (st, none)
  | some fd =>
    let font_path := osJoin fonts_dir fd.2.2
    if st.files font_path then (st, some font_path)
    else
      match get_ttf_url o st fd.2.1 with
      | (st1, none) => (st1, none)
      | (st1, some ttf_url) =>
        let st2 : St := { st1 with requests := st1.requests + 1 }
        match o.ttfOf ttf_url with
        | none => (st2, none)
        | some _ =>
          let st3 : St :=
            { st2 with files := fun q => q == font_path || st2.files q }
          (st3, some font_path)

/-- `FontManager.ensure_all_fonts` (`check.py` lines 88-97): walk the
registry, download what is missing, collect the names that could not be
provisioned, and report `(missing == [], missing)`. -/
def ensure_all_fonts (o : Oracles) (st : St) (fonts_dir : String) :
    (Bool × List String) × St :=
  let r := fonts_data.foldl
    (fun (acc : List String × St) fd =>
      let font_path := osJoin fonts_dir fd.2.2
      if acc.2.files font_path then acc
      else
        match download_font o acc.2 fonts_dir fd.1 with
        | (s, some _) => (acc.1, s)
        | (s, none) => (acc.1 ++ [fd.1], s))
    ([], st)
  ((r.1.length == 0, r.1), r.2)

/-- Every registered font's cache file exists. -/
def cachePopulated (files : String → Bool) : Prop :=
  ∀ fd ∈ fonts_data, files (osJoin "fonts" fd.2.2) = true

instance (files : String → Bool) : Decidable (cachePopulated files) :=
  inferInstanceAs (Decidable (∀ fd ∈ fonts_data, _))

/-! ### Drawing layer

A canvas receives a sequence of drawing operations.  PIL's rasterization of
an operation into pixels is abstracted as a `raster` function; the fact the
claims need is which operations are (or are not) emitted, and where. -/

/-- An RGBA color; the script's RGB triples paint fully opaque. -/
def Color := ℤ × ℤ × ℤ × ℤ
deriving DecidableEq

/-- Wrap an RGB triple from the script as an opaque color. -/
def rgb (r g b : ℤ) : Color := (r, g, b, 255)

/-- Palette constants of `create_font_preview` (`check.py` lines 116-122). -/
def background_color : Color := rgb 252 252 252
def headline_color : Color := rgb 10 47 47
def body_color : Color := rgb 71 85 105
def accent_color : Color := rgb 20 184 166
def muted_color : Color := rgb 100 116 139
def card_color : Color := rgb 255 255 255
def card_border : Color := rgb 226 232 240
def white : Color := rgb 255 255 255

/-- A `draw.textbbox((0,0), text, font)` result. -/
structure Bbox where
  x0 : ℤ
  y0 : ℤ
  x1 : ℤ
  y1 : ℤ

/-- Text-measurement oracle standing for PIL font metrics: font key (the
keys of the script's `fonts` dictionary) and text to bounding box. -/
def Measure := String → String → Bbox

/-- One drawing operation on a canvas.  `pasteImage` records which image
(by tag) is pasted and its position and size. -/
inductive DrawOp where
  | roundedRect (x0 y0 x1 y1 radius : ℤ) (fill : Color)
      (outline : Option Color) (borderWidth : ℤ)
  | text (x y : ℤ) (s : String) (fontKey : String) (fill : Color)
  | pasteImage (tag : String) (x y w h : ℤ)

/-- Whether an operation draws a rounded rectangle. -/
def DrawOp.isRoundedRect : DrawOp → Bool
  | DrawOp.roundedRect _ _ _ _ _ _ _ _ => true
  | _ => false

/-- Execute operations in order through an abstract rasterizer. -/
def applyOps (raster : DrawOp → (ℤ → ℤ → Color) → (ℤ → ℤ → Color))
    (ops : List DrawOp) (c : ℤ → ℤ → Color) : ℤ → ℤ → Color :=
  ops.foldl (fun acc op => raster op acc) c

/-- One entry of the `content_pairs` list. -/
structure Content where
  eyebrow : String
  title : String
  subtitle : String
  body_large : String
  body_regular : String
  button_text : String
  caption : String

/-- The off-canvas image built by `draw_button_with_shadow`: its own size
and its own operation list, drawn on a fresh transparent image. -/
structure ButtonImage where
  w : ℤ
  h : ℤ
  ops : List DrawOp

/-- `draw_button_with_shadow` (`check.py` lines 547-581): a fresh
`(width+4) x (height+4)` RGBA image holding a shadow rectangle, the button
rectangle, a text shadow, and the label.  The `x y` arguments are accepted
and unused, exactly as in the source.  Python `//` is floor division. -/
def draw_button_with_shadow (m : Measure) (x y width height : ℤ)
    (bg_color : Color) (text font_key : String) (text_color : Color) :
    ButtonImage :=
  let tb := m font_key text
  let text_width := tb.x1 - tb.x0
  let text_height := tb.y1 - tb.y0
  let text_x := Int.fdiv (width - text_width) 2
  let text_y := Int.fdiv (height - text_height) 2 - 1
  let shadow_offset : ℤ := 1
  { w := width + 4, h := height + 4,
    ops := [DrawOp.roundedRect 2 2 (width + 2) (height + 2) 8
              (0, 0, 0, 50) none 0,
            DrawOp.roundedRect 0 0 width height 8 bg_color none 0,
            DrawOp.text (text_x + shadow_offset) (text_y + shadow_offset)
              text font_key (0, 0, 0, 60),
            DrawOp.text text_x text_y text font_key text_color] }

/-- Button width computation of `draw_card` (`check.py` lines 672-678):
measured text width plus twice the button padding of 20, clamped to the
card's content width `width - 2*padding`. -/
def cardButtonWidth (m : Measure) (button_text : String)
    (width padding : ℤ) : ℤ :=
  let button_padding : ℤ := 20
  let bb := m "body_regular" button_text
  min (bb.x1 - bb.x0 + button_padding * 2) (width - 2 * padding)

/-- The composite button image `draw_card` builds (`check.py` lines
680-689), with the inverted button palette. -/
def cardButtonImage (m : Measure) (content : Content)
    (x y width height : ℤ) (bg_color accent : Color)
    (padding button_margin_bottom : ℤ) : ButtonImage :=
  let button_width := cardButtonWidth m content.button_text width padding
  let button_height : ℤ := 44
  let button_y := y + height - button_margin_bottom
  let button_bg_color := if bg_color = rgb 255 255 255 then accent
    else rgb 255 255 255
  let button_text_color := if bg_color = rgb 255 255 255 then rgb 255 255 255
    else accent
  draw_button_with_shadow m (x + padding) button_y button_width
    button_height button_bg_color content.button_text "body_regular"
    button_text_color

/-- The button-drawing step of `draw_card`: the composite button image is
built and bound to a local name, but no operation is emitted onto the
target canvas — the source never pastes `button_image` (`check.py` line
686 assigns it and nothing uses it). -/
def card_button_step (m : Measure) (content : Content)
    (x y width height : ℤ) (bg_color accent : Color)
    (padding button_margin_bottom : ℤ) : List DrawOp :=
  let button_image := cardButtonImage m content x y width height bg_color
    accent padding button_margin_bottom
  []

/-- Python `line.strip()` with no argument: trim whitespace at both ends. -/
def pyStripWs (s : String) : String :=
  String.mk (((s.data.dropWhile Char.isWhitespace).reverse.dropWhile
    Char.isWhitespace).reverse)

/-- The per-line body text loop of `draw_card`: split on newlines, strip
each line, advance by the paragraph's line height. -/
def drawLines (font_key : String) (content_x start_y line_height : ℤ)
    (text : String) (fill : Color) : List DrawOp :=
  (text.splitOn "\n").enum.map (fun p =>
    DrawOp.text content_x (start_y + line_height * (p.1 : ℤ))
      (pyStripWs p.2) font_key fill)

/-- `draw_card` (`check.py` lines 626-695): the exact sequence of
operations emitted onto the target canvas — card background, eyebrow,
title, subtitle, two body paragraphs, the (silently dropped) button step,
and the caption line. -/
def draw_card (m : Measure) (content : Content) (x y width height : ℤ)
    (bg_color border_color text_color body_text_color accent : Color)
    (padding button_margin_bottom caption_margin_bottom : ℤ) :
    List DrawOp :=
  let content_x := x + padding
  let content_y := y + padding
  [DrawOp.roundedRect x y (x + width) (y + height) 12 bg_color
     (some border_color) 2,
   DrawOp.text content_x content_y content.eyebrow "body_small" accent,
   DrawOp.text content_x (content_y + 30) content.title "h2" text_color,
   DrawOp.text content_x (content_y + 85) content.subtitle "h5" accent]
  ++ drawLines "body_large" content_x (content_y + 130) 28
      content.body_large body_text_color
  ++ drawLines "body_regular" content_x (content_y + 190) 24
      content.body_regular body_text_color
  ++ card_button_step m content x y width height bg_color accent padding
      button_margin_bottom
  ++ [DrawOp.text content_x (y + height - caption_margin_bottom)
        (content.caption ++ " • t.me/sergiobulaev") "caption"
        body_text_color]

/-- The `content_pairs` list of `create_font_preview` (`check.py` lines
203-264): the four cards of the 2x2 preview grid, with their exact
strings (adjacent string literals of the source concatenated). -/
def content_pairs : List Content :=
  [{ eyebrow := "TECHNOLOGY",
     title := "Digital Innovation",
     subtitle := "Transforming the Future",
     body_large := "Artificial intelligence and machine learning are\nrevolutionizing how we interact with technology.",
     body_regular := "These groundbreaking advances are creating unprecedented\nopportunities for innovation and growth across industries.",
     button_text := "Explore AI Solutions",
     caption := "Sergey Bulaev AI • AI use cases for everyone" },
   { eyebrow := "DESIGN",
     title := "User Experience",
     subtitle := "Designing for Humans",
     body_large := "Great design puts human needs first. Understanding\nuser behavior and psychology.",
     body_regular := "We create intuitive interfaces that delight users while\nsolving complex problems effectively.",
     button_text := "Learn More",
     caption := "Updated weekly • Latest trends in UX" },
   { eyebrow := "SECURITY",
     title := "Data Privacy",
     subtitle := "Protecting Digital Rights",
     body_large := "In our interconnected world, protecting personal\ndata has become crucial.",
     body_regular := "Organizations must implement robust security measures\nwhile maintaining transparency.",
     button_text := "View Guidelines",
     caption := "Essential reading • Security guidelines" },
   { eyebrow := "ENVIRONMENT",
     title := "Sustainability",
     subtitle := "Building Tomorrow",
     body_large := "Environmental consciousness is reshaping how we\napproach development.",
     body_regular := "From renewable energy to sustainable materials, every\nchoice impacts our future.",
     button_text := "Join Initiative",
     caption := "Ongoing initiative • Join the movement" }]

/-- One iteration of the card grid loop of `create_font_preview`
(`check.py` lines 271-290): fetch `content_pairs[row*2 + col]` (skipping
out-of-range indices, as the `continue` does), compute the card position
from `margin = 70`, `column_width = (1400 - 3*70) // 2`, `columns_y = 240`
and `row_spacing = 400`, pick the color variant from `col == 1`, and draw
the card with `card_padding = 40`, `card_height = 380`,
`button_margin_bottom = 80`, `caption_margin_bottom = 25`. -/
def preview_card_at (m : Measure) (row col : ℕ) : List DrawOp :=
  match content_pairs.get? (row * 2 + col) with
  | none => []
  | some content =>
    let margin : ℤ := 70
    let column_width := Int.fdiv (1400 - 3 * margin) 2
    let x := margin + (col : ℤ) * (column_width + margin)
    let y := 240 + (row : ℤ) * 400
    let is_inverted := col == 1
    let card_bg := if is_inverted then headline_color else card_color
    let text_color := if is_inverted then white else headline_color
    let body_text_color := if is_inverted then white else body_color
    draw_card m content x y column_width 380 card_bg card_border text_color
      body_text_color accent_color 40 80 25

/-- The complete operation stream of the card-grid phase of
`create_font_preview`: rows then columns, in drawing order. -/
def preview_cards_ops (m : Measure) : List DrawOp :=
  (List.range 2).flatMap (fun row =>
    (List.range 2).flatMap (fun col => preview_card_at m row col))

/-- `draw_telegram_section` (`check.py` lines 583-624): paste the 120x120
QR code at the left margin, draw the three contact lines to its right, and
return the QR code's bottom edge `qr_y + qr_size`.  The `width` argument
is accepted and unused, as in the source. -/
def draw_telegram_section (width y_position : ℤ) (text_color : Color) :
    List DrawOp × ℤ :=
  let qr_size : ℤ := 120
  let margin : ℤ := 70
  let qr_x := margin
  let qr_y := y_position
  let text_x := qr_x + qr_size + 30
  let text_bottom := qr_y + qr_size
  let line_spacing : ℤ := 25
  ([DrawOp.pasteImage "qr" qr_x qr_y qr_size qr_size,
    DrawOp.text text_x (text_bottom - line_spacing)
      "AI use cases for everyone" "body_regular" text_color,
    DrawOp.text text_x (text_bottom - line_spacing * 2)
      "https://t.me/sergiobulaev" "body_large" text_color,
    DrawOp.text text_x (text_bottom - line_spacing * 3)
      "Sergey Bulaev AI" "body_regular_bold" text_color],
   qr_y + qr_size)

/-! ### Card color inversion -/

/-- The three colors chosen for a card. -/
structure CardColors where
  card_bg : Color
  text_color : Color
  body_text_color : Color
deriving DecidableEq

/-- The inversion branching shared by `create_font_preview` lines 282-285
and `create_preview_for_comparison` lines 517-520. -/
def card_colors_of (is_inverted : Bool) : CardColors :=
  { card_bg := if is_inverted then headline_color else card_color,
    text_color := if is_inverted then white else headline_color,
    body_text_color := if is_inverted then white else body_color }

/-- `create_font_preview` line 282: a card is inverted iff it sits in the
right column of the 2x2 grid. -/
def preview_card_colors (col : ℕ) : CardColors :=
  card_colors_of (col == 1)

/-- `create_preview_for_comparison` line 517: the second card of the pair
is inverted. -/
def comparison_card_colors (i : ℕ) : CardColors :=
  card_colors_of (i == 1)

/-! ### Background pattern generator -/

/-- Python `int()` on a rational: truncation toward zero. -/
def pyInt (q : ℚ) : ℤ := if q < 0 then -(Int.floor (-q)) else Int.floor q

/-- Default opacity of `create_penrose_pattern` (`check.py` line 806). -/
def default_opacity : ℚ := 35 / 1000

/-- The fill color `color + (int(255 * opacity),)` of
`create_penrose_pattern` (`check.py` line 832). -/
def pattern_rgba (color : ℤ × ℤ × ℤ) (opacity : ℚ) : Color :=
  (color.1, color.2.1, color.2.2, pyInt (255 * opacity))

/-- `create_penrose_pattern` (`check.py` lines 806-850) at the pixel
level: the layer starts fully transparent `(0,0,0,0)` and every pixel
covered by a drawn rhombus is filled with `pattern_rgba`.  The rhombus
geometry uses floating-point trigonometry (`cos`/`sin` of 32 and 148
degrees) and PIL's polygon rasterizer, which the embedding abstracts as
the coverage predicate `covered`; the alpha computation is the source's. -/
def create_penrose_pattern (covered : ℤ → ℤ → Bool) (width height : ℤ)
    (color : ℤ × ℤ × ℤ) (opacity : ℚ) : ℤ → ℤ → Color :=
  fun px py =>
    if covered px py then pattern_rgba color opacity else (0, 0, 0, 0)

/-- Alpha channel of a color. -/
def alphaOf (c : Color) : ℤ := c.2.2.2

/-! ### Page assembly

`create_font_preview` and the batch driver are modelled at the level of
their observable effects: which log events they emit and which image files
they write (path and pixel dimensions).  The modelled failure modes are
the ones the source can hit on its own environment: the explicit
"Required fonts not found" existence check and `ImageFont.truetype`
failing on a present-but-invalid file.  Drawing on successfully loaded
fonts is modelled as total.  The canvas is created at 1400x1400 (`width`,
`height`, `check.py` lines 114-115) and `apply_background_pattern`
preserves the size (`Image.alpha_composite` of same-size layers), so the
saved file has the canvas dimensions. -/

/-- Log events printed by the drawing-stage functions. -/
inductive LogEntry where
  | created (path : String)
  | previewError (headline body : String)
  | comparisonPreviewError
  | comparisonCreated (path : String)
  | comparisonError
  | missingFonts
deriving DecidableEq

/-- A written image file: path, pixel width, pixel height. -/
def OutFile := String × ℤ × ℤ
deriving DecidableEq

/-- The font-pair list shared by `create_font_comparison` (lines 331-336)
and `generate_all_previews` (lines 720-725). -/
def font_pairs : List (String × String) :=
  [("SpaceGrotesk", "Inter"),
   ("SpaceGrotesk", "Outfit"),
   ("SpaceGrotesk", "DMSans"),
   ("SpaceGrotesk", "PublicSans")]

/-- Path of the font file `create_font_preview` derives from a font name
(`check.py` lines 146-147). -/
def fontPathOf (fonts_dir name : String) : String :=
  osJoin fonts_dir (pyLower name ++ ".ttf")

/-- Output path `create_font_preview` saves to (`check.py` lines
321-322). -/
def previewOutPath (output_dir headline body : String) : String :=
  osJoin output_dir (pyLower headline ++ "_" ++ pyLower body ++ ".png")

/-- Both fonts of a pair exist in the cache and load successfully. -/
def previewOk (o : Oracles) (files : String → Bool)
    (fonts_dir headline body : String) : Bool :=
  files (fontPathOf fonts_dir headline) && files (fontPathOf fonts_dir body)
    && o.loads (fontPathOf fonts_dir headline)
    && o.loads (fontPathOf fonts_dir body)

/-- `create_font_preview` (`check.py` lines 109-327).  Inside the `try`:
the two font paths are checked for existence (explicit raise), the fonts
are loaded (`ImageFont.truetype` raises on an invalid file), the canvas is
drawn, and the image is saved as
`output_dir/{headline.lower()}_{body.lower()}.png` at 1400x1400.  Any
exception is caught by the single `except`, which logs one failure for the
pair and writes nothing. -/
def create_font_preview (o : Oracles) (files : String → Bool)
    (headline body fonts_dir output_dir : String) :
    List LogEntry × List OutFile :=
  let width : ℤ := 1400
  let height : ℤ := 1400
  let headline_font_path := fontPathOf fonts_dir headline
  let body_font_path := fontPathOf fonts_dir body
  if files headline_font_path && files body_font_path then
    if o.loads headline_font_path && o.loads body_font_path then
      let output_path := previewOutPath output_dir headline body
      ([LogEntry.created output_path], [(output_path, width, height)])
    else ([LogEntry.previewError headline body], [])
  else ([LogEntry.previewError headline body], [])

/-- `create_preview_for_comparison` (`check.py` lines 425-530): no
existence pre-check, `ImageFont.truetype` is called directly, so the
preview fails (logs and returns `None`) exactly when a font fails to
load; otherwise the `width x height` preview is returned. -/
def create_preview_for_comparison (o : Oracles)
    (headline body : String) (width height : ℤ) :
    List LogEntry × Option (ℤ × ℤ) :=
  let headline_font_path := fontPathOf "fonts" headline
  let body_font_path := fontPathOf "fonts" body
  if o.loads headline_font_path && o.loads body_font_path then
    ([], some (width, height))
  else ([LogEntry.comparisonPreviewError], none)

/-- The per-pair loop of `create_font_comparison` (`check.py` lines
374-396): each preview is built and pasted in order; a `None` preview
makes `comparison.paste(None, ...)` raise, aborting the loop (`false`). -/
def comparison_loop (o : Oracles) : List (String × String) →
    List LogEntry × Bool
  | [] => ([], true)
  | (headline, body) :: rest =>
    match create_preview_for_comparison o headline body 1400 1000 with
    | (logs, some _) =>
      let r := comparison_loop o rest
      (logs ++ r.1, r.2)
    | (logs, none) => (logs, false)

/-- Collage dimensions of `create_font_comparison` (`check.py` lines
339-346): `(1400+100)*4 + 100` by `1000 + 2*100 + 200`. -/
def comparison_total_width : ℤ := (1400 + 100) * (font_pairs.length : ℤ) + 100
def comparison_total_height : ℤ := 1000 + 100 * 2 + 200

/-- `create_font_comparison` (`check.py` lines 329-423): requires
`fonts/inter.ttf` to exist (explicit raise) and load; then runs the
per-pair loop; any exception — including the `paste(None)` failure — is
caught by the single outer `except`, so `font_previews/font_comparison.png`
is written only if every pair's preview succeeded. -/
def create_font_comparison (o : Oracles) (files : String → Bool) :
    List LogEntry × List OutFile :=
  if files (osJoin "fonts" "inter.ttf") && o.loads (osJoin "fonts" "inter.ttf")
  then
    let r := comparison_loop o font_pairs
    if r.2 then
      let output_path := osJoin "font_previews" "font_comparison.png"
      (r.1 ++ [LogEntry.comparisonCreated output_path],
       [(output_path, comparison_total_width, comparison_total_height)])
    else (r.1 ++ [LogEntry.comparisonError], [])
  else ([LogEntry.comparisonError], [])

/-- `generate_all_previews` (`check.py` lines 697-731): ensure all fonts
(aborting the batch if any is missing), clean the output directory (so the
files written this run are exactly the listed ones), draw one preview per
pair, then the comparison collage. -/
def generate_all_previews (o : Oracles) (st : St) :
    St × List LogEntry × List OutFile :=
  let r := ensure_all_fonts o st "fonts"
  if r.1.1 then
    let st1 := r.2
    let pair_results := font_pairs.map (fun p =>
      create_font_preview o st1.files p.1 p.2 "fonts" "font_previews")
    let cmp := create_font_comparison o st1.files
    (st1, pair_results.flatMap Prod.fst ++ cmp.1,
     pair_results.flatMap Prod.snd ++ cmp.2)
  else (r.2, [LogEntry.missingFonts], [])

/-! ### Claim theorems -/

/-- `draw_card` emits no paste operation onto the target canvas. -/
theorem draw_card_no_paste (m : Measure) (content : Content)
    (x y width height : ℤ)
    (bg_color border_color text_color body_text_color accent : Color)
    (padding button_margin_bottom caption_margin_bottom : ℤ) :
    ∀ tag px py pw ph, DrawOp.pasteImage tag px py pw ph ∉
      draw_card m content x y width height bg_color border_color text_color
        body_text_color accent padding button_margin_bottom
        caption_margin_bottom := by
  intro tag px py pw ph hmem
  simp only [draw_card, card_button_step, drawLines, List.mem_append,
    List.mem_cons, List.mem_map, List.not_mem_nil, List.mem_singleton,
    or_false, false_or] at hmem
  rcases hmem with h | h | h | h | ⟨_, _, h⟩ | ⟨_, _, h⟩ | h
  all_goals exact absurd h (by simp)

/-- No iteration of the preview's card grid emits a paste operation. -/
theorem preview_card_at_no_paste (m : Measure) (row col : ℕ) :
    ∀ tag px py pw ph,
      DrawOp.pasteImage tag px py pw ph ∉ preview_card_at m row col := by
  intro tag px py pw ph
  unfold preview_card_at
  split
  · simp
  · exact draw_card_no_paste m _ _ _ _ _ _ _ _ _ _ _ _ _ tag px py pw ph

/-- Body paragraph lines contain no rounded rectangle. -/
theorem drawLines_filter_rect (font_key : String)
    (content_x start_y line_height : ℤ) (text : String) (fill : Color) :
    (drawLines font_key content_x start_y line_height text fill).filter
      DrawOp.isRoundedRect = [] := by
  unfold drawLines
  generalize (text.splitOn "\n").enum = l
  induction l with
  | nil => rfl
  | cons a l ih => simp [DrawOp.isRoundedRect, ih]

/-- C2: in `draw_card`, the composite button image returned by
`draw_button_with_shadow` is bound to a local variable but never pasted
or composited onto the target canvas.  Precisely: `draw_card` emits no
paste operation; its button step emits the empty operation list, so
running that step leaves every pixel of any canvas unchanged under any
rasterizer; the operations `draw_card` emits are exactly those of the
non-button steps (background, eyebrow, title, subtitle, the two body
paragraphs, caption), and therefore do not depend on the text-measurement
oracle that only the discarded button consumes; the only rounded
rectangle reaching the target is the radius-12 card background — neither
of the button image's radius-8 rectangles appears — even though that
discarded image holds four drawing operations; and no paste operation
occurs anywhere in the card-grid phase of a generated preview. -/
theorem c2_button_never_composited (m : Measure) (content : Content)
    (x y width height : ℤ)
    (bg_color border_color text_color body_text_color accent : Color)
    (padding button_margin_bottom caption_margin_bottom : ℤ) :
    (∀ tag px py pw ph, DrawOp.pasteImage tag px py pw ph ∉
      draw_card m content x y width height bg_color border_color text_color
        body_text_color accent padding button_margin_bottom
        caption_margin_bottom) ∧
    card_button_step m content x y width height bg_color accent padding
      button_margin_bottom = [] ∧
    (∀ raster c, applyOps raster
      (card_button_step m content x y width height bg_color accent padding
        button_margin_bottom) c = c) ∧
    draw_card m content x y width height bg_color border_color text_color
        body_text_color accent padding button_margin_bottom
        caption_margin_bottom =
      [DrawOp.roundedRect x y (x + width) (y + height) 12 bg_color
         (some border_color) 2,
       DrawOp.text (x + padding) (y + padding) content.eyebrow "body_small"
         accent,
       DrawOp.text (x + padding) (y + padding + 30) content.title "h2"
         text_color,
       DrawOp.text (x + padding) (y + padding + 85) content.subtitle "h5"
         accent]
      ++ drawLines "body_large" (x + padding) (y + padding + 130) 28
          content.body_large body_text_color
      ++ drawLines "body_regular" (x + padding) (y + padding + 190) 24
          content.body_regular body_text_color
      ++ [DrawOp.text (x + padding) (y + height - caption_margin_bottom)
            (content.caption ++ " • t.me/sergiobulaev") "caption"
            body_text_color] ∧
    (∀ m2 : Measure,
      draw_card m2 content x y width height bg_color border_color
        text_color body_text_color accent padding button_margin_bottom
        caption_margin_bottom =
      draw_card m content x y width height bg_color border_color text_color
        body_text_color accent padding button_margin_bottom
        caption_margin_bottom) ∧
    (draw_card m content x y width height bg_color border_color text_color
        body_text_color accent padding button_margin_bottom
        caption_margin_bottom).filter DrawOp.isRoundedRect =
      [DrawOp.roundedRect x y (x + width) (y + height) 12 bg_color
        (some border_color) 2] ∧
    (cardButtonImage m content x y width height bg_color accent padding
      button_margin_bottom).ops.length = 4 ∧
    (∀ m3 : Measure, ∀ tag px py pw ph,
      DrawOp.pasteImage tag px py pw ph ∉ preview_cards_ops m3) := by
  have hd : draw_card m content x y width height bg_color border_color
      text_color body_text_color accent padding button_margin_bottom
      caption_margin_bottom =
      [DrawOp.roundedRect x y (x + width) (y + height) 12 bg_color
         (some border_color) 2,
       DrawOp.text (x + padding) (y + padding) content.eyebrow "body_small"
         accent,
       DrawOp.text (x + padding) (y + padding + 30) content.title "h2"
         text_color,
       DrawOp.text (x + padding) (y + padding + 85) content.subtitle "h5"
         accent]
      ++ drawLines "body_large" (x + padding) (y + padding + 130) 28
          content.body_large body_text_color
      ++ drawLines "body_regular" (x + padding) (y + padding + 190) 24
          content.body_regular body_text_color
      ++ [DrawOp.text (x + padding) (y + height - caption_margin_bottom)
            (content.caption ++ " • t.me/sergiobulaev") "caption"
            body_text_color] := by
    simp [draw_card, card_button_step]
  refine ⟨draw_card_no_paste m content x y width height bg_color
      border_color text_color body_text_color accent padding
      button_margin_bottom caption_margin_bottom,
    rfl, fun raster c => rfl, hd, fun m2 => rfl, ?_, ?_, ?_⟩
  · rw [hd]
    simp [List.filter_append, drawLines_filter_rect, DrawOp.isRoundedRect]
  · simp [cardButtonImage, draw_button_with_shadow]
  · intro m3 tag px py pw ph hmem
    simp only [preview_cards_ops, List.mem_flatMap] at hmem
    obtain ⟨row, _, col, _, hin⟩ := hmem
    exact preview_card_at_no_paste m3 row col tag px py pw ph hin

/-- C6: the card color assignment is a pure function of position: the
right column of the 2x2 grid (`col == 1`) and the second card of a
comparison pair (`i == 1`) get the dark headline color as background with
white foreground, every other card gets the white card color as background
with the dark headline color as foreground, and the two variants are
mutually exclusive. -/
theorem c6_color_inversion (col i : ℕ) :
    preview_card_colors col = card_colors_of (col == 1) ∧
    comparison_card_colors i = card_colors_of (i == 1) ∧
    (col = 1 → preview_card_colors col =
      ⟨headline_color, white, white⟩) ∧
    (col ≠ 1 → preview_card_colors col =
      ⟨card_color, headline_color, body_color⟩) ∧
    (i = 1 → comparison_card_colors i =
      ⟨headline_color, white, white⟩) ∧
    (i ≠ 1 → comparison_card_colors i =
      ⟨card_color, headline_color, body_color⟩) ∧
    (∀ b : Bool,
      ((card_colors_of b).card_bg = headline_color ∧
       (card_colors_of b).text_color = white) ↔
      ¬((card_colors_of b).card_bg = card_color ∧
        (card_colors_of b).text_color = headline_color)) := by
  refine ⟨rfl, rfl, ?_, ?_, ?_, ?_, ?_⟩
  · intro h; subst h; rfl
  · intro h
    simp [preview_card_colors, card_colors_of,
      show (col == 1) = false by simpa using h]
  · intro h; subst h; rfl
  · intro h
    simp [comparison_card_colors, card_colors_of,
      show (i == 1) = false by simpa using h]
  · intro b; cases b <;> decide

/-- C6 witness: at the concrete positions `col = 1` and `i = 0` the two
variants are produced. -/
theorem c6_color_inversion_witness :
    preview_card_colors 1 = ⟨headline_color, white, white⟩ ∧
    comparison_card_colors 0 =
      ⟨card_color, headline_color, body_color⟩ := by
  exact ⟨(c6_color_inversion 1 0).2.2.1 rfl,
         (c6_color_inversion 1 0).2.2.2.2.2.1 (by decide)⟩

/-- C7: the button width computed in `draw_card` is the measured text
width plus twice the button padding of 20, clamped so that it never
exceeds the card's content width `width - 2*padding`, for every measure,
card width, padding and button text. -/
theorem c7_button_width_clamped (m : Measure) (button_text : String)
    (width padding : ℤ) :
    cardButtonWidth m button_text width padding ≤ width - 2 * padding ∧
    ((m "body_regular" button_text).x1 - (m "body_regular" button_text).x0
        + 20 * 2 ≤ width - 2 * padding →
      cardButtonWidth m button_text width padding =
        (m "body_regular" button_text).x1 -
          (m "body_regular" button_text).x0 + 20 * 2) := by
  unfold cardButtonWidth
  exact ⟨min_le_right _ _, fun h => min_eq_left h⟩

/-- Measurement oracle for the C7 witness: every text measures 100 wide
and 20 tall. -/
def measure100 : Measure := fun _ _ => ⟨0, 0, 100, 20⟩

/-- C7 witness: with a 100-wide label on a 640-wide card with padding 40,
the button is 140 wide and within the 560 content width. -/
theorem c7_button_width_clamped_witness :
    cardButtonWidth measure100 "Learn More" 640 40 ≤ 640 - 2 * 40 ∧
    cardButtonWidth measure100 "Learn More" 640 40 = 140 :=
  ⟨(c7_button_width_clamped measure100 "Learn More" 640 40).1,
   ((c7_button_width_clamped measure100 "Learn More" 640 40).2
      (by decide)).trans (by decide)⟩

/-- C9: `draw_telegram_section` always returns `y_position + 120`, which
is the bottom edge of the 120x120 QR code image it pastes at
`(70, y_position)`. -/
theorem c9_telegram_bottom_edge (width y_position : ℤ)
    (text_color : Color) :
    (draw_telegram_section width y_position text_color).2 =
      y_position + 120 ∧
    DrawOp.pasteImage "qr" 70 y_position 120 120 ∈
      (draw_telegram_section width y_position text_color).1 := by
  exact ⟨rfl, by simp [draw_telegram_section]⟩

/-- C3 counterexample: at the script's own default opacity `0.035`, a
covered pixel's alpha is `int(255*0.035) = 8`, while the claimed
`round(255*0.035)` is `9`: the pattern generator truncates, it does not
round. -/
theorem c3_round_counterexample :
    alphaOf (create_penrose_pattern (fun _ _ => true) 1400 1400
      (10, 47, 47) default_opacity 0 0) = 8 ∧
    round ((255 : ℚ) * default_opacity) = 9 ∧ (8 : ℤ) ≠ 9 := by
  refine ⟨?_, ?_, by decide⟩
  · show pyInt (255 * default_opacity) = 8
    rw [pyInt, if_neg (by norm_num [default_opacity])]
    rw [Int.floor_eq_iff]
    norm_num [default_opacity]
  · rw [round_eq, Int.floor_eq_iff]
    norm_num [default_opacity]

/-- C3 as amended: for every canvas size, tint, coverage and opacity in
`[0,1]`, a pixel of the generated layer has alpha `int(255*opacity)` —
truncation, which for nonnegative opacity is `⌊255*opacity⌋` — when it is
covered by a drawn rhombus, and `0` everywhere else; the alpha always
lies in `[0, 255]`. -/
theorem c3_alpha_truncation (covered : ℤ → ℤ → Bool) (width height : ℤ)
    (color : ℤ × ℤ × ℤ) (opacity : ℚ) (h0 : 0 ≤ opacity)
    (h1 : opacity ≤ 1) (px py : ℤ) :
    alphaOf (create_penrose_pattern covered width height color opacity
        px py) =
      (if covered px py then ⌊255 * opacity⌋ else 0) ∧
    0 ≤ ⌊(255 : ℚ) * opacity⌋ ∧ ⌊(255 : ℚ) * opacity⌋ ≤ 255 := by
  have hq : (0 : ℚ) ≤ 255 * opacity := by positivity
  refine ⟨?_, Int.floor_nonneg.2 hq, ?_⟩
  · unfold create_penrose_pattern pattern_rgba alphaOf pyInt
    rcases hcov : covered px py with _ | _
    · simp [hcov]
    · simp [hcov, not_lt.2 hq]
  · have hle : (255 : ℚ) * opacity ≤ 255 := by nlinarith
    have := Int.floor_le_floor hle
    simpa using this

/-- C3 witness: the amended theorem applied at the default opacity, one
covered and one uncovered pixel. -/
theorem c3_alpha_truncation_witness :
    alphaOf (create_penrose_pattern (fun px _ => px == 0) 1400 1400
      (10, 47, 47) default_opacity 0 0) = 8 ∧
    alphaOf (create_penrose_pattern (fun px _ => px == 0) 1400 1400
      (10, 47, 47) default_opacity 5 5) = 0 := by
  have hc := (c3_alpha_truncation (fun px _ => px == 0) 1400 1400
    (10, 47, 47) default_opacity (by norm_num [default_opacity])
    (by norm_num [default_opacity]) 0 0).1
  have hu := (c3_alpha_truncation (fun px _ => px == 0) 1400 1400
    (10, 47, 47) default_opacity (by norm_num [default_opacity])
    (by norm_num [default_opacity]) 5 5).1
  refine ⟨?_, by simpa using hu⟩
  rw [hc]
  rw [if_pos (by decide), Int.floor_eq_iff]
  norm_num [default_opacity]

/-- A successful occurrence reported by `findSubAux` for a nonempty needle
lies strictly inside the haystack. -/
theorem findSubAux_lt (sub : List Char) (hsub : sub ≠ []) :
    ∀ l i, findSubAux sub l = some i → i < l.length := by
  intro l
  induction l with
  | nil =>
    intro i h
    rcases sub with _ | ⟨x, xs⟩
    · exact absurd rfl hsub
    · simp [findSubAux, List.isPrefixOf] at h
  | cons c rest ih =>
    intro i h
    simp only [findSubAux] at h
    split at h
    · cases h; simp
    · rcases Option.map_eq_some'.1 h with ⟨i', hi', rfl⟩
      simpa using Nat.succ_lt_succ (ih i' hi')

/-- A nonnegative `pyFind` result is an index between `start` and the end
of the string. -/
theorem pyFind_bounds (s sub : String) (start : ℕ)
    (hsub : sub.data ≠ []) (j : ℕ) (h : pyFind s sub start = (j : ℤ)) :
    start ≤ j ∧ j < s.data.length := by
  unfold pyFind at h
  cases hfa : findSubAux sub.data (s.data.drop start) with
  | none =>
    rw [hfa] at h
    simp only [] at h
    omega
  | some i =>
    rw [hfa] at h
    simp only [] at h
    have hij : i + start = j := by exact_mod_cast h
    have hlt := findSubAux_lt sub.data hsub _ i hfa
    rw [List.length_drop] at hlt
    omega

/-- Python `s[3:-1]` keeps the characters from index 3 up to, but
excluding, the last one. -/
theorem slice_three_neg_one (l : List Char) :
    (l.drop (min 3 l.length)).take
      (((l.length : ℤ) + (-1)).toNat - min 3 l.length) =
    (l.drop 3).dropLast := by
  rcases Nat.lt_or_ge l.length 4 with h | h
  · have h1 : l.drop (min 3 l.length) = [] :=
      List.drop_eq_nil_of_le (by omega)
    have h2 : l.drop 3 = [] := List.drop_eq_nil_of_le (by omega)
    rw [h1, h2]
    simp
  · have hmin : min 3 l.length = 3 := by omega
    have htn : ((l.length : ℤ) + (-1)).toNat = l.length - 1 := by omega
    rw [hmin, htn, List.dropLast_eq_take, List.length_drop]
    congr 1

/-- Python `s[3:j]` for an in-range `j ≥ 3` keeps the characters from
index 3 up to `j`. -/
theorem slice_three_j (l : List Char) (j : ℕ) (h3 : 3 ≤ j)
    (hj : j < l.length) :
    (l.drop (min 3 l.length)).take (min j l.length - min 3 l.length) =
    (l.drop 3).take (j - 3) := by
  have hmin3 : min 3 l.length = 3 := by omega
  have hminj : min j l.length = j := by omega
  rw [hmin3, hminj]

/-- `pySlice s 3 (-1)` in terms of `drop` and `dropLast`. -/
theorem pySlice_three_neg_one (s : String) :
    pySlice s 3 (-1) = String.mk ((s.data.drop 3).dropLast) := by
  have h1 : sliceIdx s.length 3 = min 3 s.length := by
    unfold sliceIdx
    rw [if_neg (by norm_num)]
    omega
  have h2 : sliceIdx s.length (-1) = ((s.length : ℤ) + (-1)).toNat := by
    unfold sliceIdx
    rw [if_pos (by norm_num)]
  unfold pySlice
  simp only [h1, h2]
  exact congrArg String.mk (slice_three_neg_one s.data)

/-- `pySlice s 3 j` for an in-range `j ≥ 3` in terms of `drop` and
`take`. -/
theorem pySlice_three_j (s : String) (j : ℕ) (h3 : 3 ≤ j)
    (hj : j < s.data.length) :
    pySlice s 3 ((j : ℤ)) = String.mk ((s.data.drop 3).take (j - 3)) := by
  have h1 : sliceIdx s.length 3 = min 3 s.length := by
    unfold sliceIdx
    rw [if_neg (by norm_num)]
    omega
  have h2 : sliceIdx s.length ((j : ℤ)) = min j s.length := by
    unfold sliceIdx
    rw [if_neg (by omega)]
    omega
  unfold pySlice
  simp only [h1, h2]
  exact congrArg String.mk (slice_three_j s.data j h3 hj)

/-- C10 counterexample: on a stylesheet with no `url(` and no `)`, the
extraction returns the slice `css[3:-1]` — `"de"` for `"abcdef"` — and
not the slice "to the end" `"def"` that the claim describes. -/
theorem c10_slice_counterexample :
    pyFind "abcdef" "url(" 0 = -1 ∧
    extract_font_url "abcdef" = "de" ∧
    pyStrip (String.mk ("abcdef".data.drop 3)) quote_chars = "def" ∧
    ("de" : String) ≠ "def" := by
  exact ⟨by decide, by decide, by decide, by decide⟩

/-- C10 as amended: if the stylesheet contains no `url(`, the extraction
does not raise: `find` returns `-1`, `url_start` becomes `3`, and the
result is the quote-stripped slice of the CSS text from index 3 up to the
first `)` at or after index 3 — or, when there is none, up to but
excluding the last character (Python `css[3:-1]`), a garbage URL rather
than a missing-pattern failure. -/
theorem c10_no_url_extraction (css : String)
    (hurl : pyFind css "url(" 0 = -1) :
    (pyFind css ")" 3 = -1 →
      extract_font_url css =
        pyStrip (String.mk ((css.data.drop 3).dropLast)) quote_chars) ∧
    (∀ j : ℕ, pyFind css ")" 3 = (j : ℤ) →
      extract_font_url css =
        pyStrip (String.mk ((css.data.drop 3).take (j - 3)))
          quote_chars) := by
  constructor
  · intro hend
    simp only [extract_font_url, hurl]
    norm_num
    rw [show Int.toNat 3 = 3 from rfl, hend, pySlice_three_neg_one]
  · intro j hj
    obtain ⟨h3j, hjl⟩ := pyFind_bounds css ")" 3 (by decide) j hj
    simp only [extract_font_url, hurl]
    norm_num
    rw [show Int.toNat 3 = 3 from rfl, hj, pySlice_three_j css j h3j hjl]

/-- C10 witness: the amended theorem at the concrete stylesheets
`"abcdef"` (no closing parenthesis) and `"abc)x"` (one at index 3). -/
theorem c10_no_url_extraction_witness :
    extract_font_url "abcdef" =
      pyStrip (String.mk (("abcdef".data.drop 3).dropLast)) quote_chars ∧
    extract_font_url "abc)x" =
      pyStrip (String.mk (("abc)x".data.drop 3).take (3 - 3)))
        quote_chars :=
  ⟨(c10_no_url_extraction "abcdef" (by decide)).1 (by decide),
   (c10_no_url_extraction "abc)x" (by decide)).2 3 (by decide)⟩

/-- A successful pair renders the preview and saves exactly one file. -/
theorem create_font_preview_ok (o : Oracles) (files : String → Bool)
    (headline body fonts_dir output_dir : String)
    (hok : previewOk o files fonts_dir headline body = true) :
    create_font_preview o files headline body fonts_dir output_dir =
      ([LogEntry.created (previewOutPath output_dir headline body)],
       [(previewOutPath output_dir headline body, 1400, 1400)]) := by
  unfold previewOk at hok
  simp only [Bool.and_eq_true] at hok
  obtain ⟨⟨⟨he1, he2⟩, hl1⟩, hl2⟩ := hok
  simp [create_font_preview, he1, he2, hl1, hl2]

/-- A failing pair logs exactly one failure and saves nothing. -/
theorem create_font_preview_fail (o : Oracles) (files : String → Bool)
    (headline body fonts_dir output_dir : String)
    (hfail : previewOk o files fonts_dir headline body = false) :
    create_font_preview o files headline body fonts_dir output_dir =
      ([LogEntry.previewError headline body], []) := by
  unfold previewOk at hfail
  unfold create_font_preview
  cases he : (files (fontPathOf fonts_dir headline) &&
      files (fontPathOf fonts_dir body)) with
  | false => simp [he]
  | true =>
    simp only [he, Bool.true_and] at hfail
    simp [he, hfail]

/-- C1: with both fonts of the pair (SpaceGrotesk, Inter) present in the
cache and loading successfully, `create_font_preview` writes exactly one
image file, named `spacegrotesk_inter.png` (the two names lowercased,
joined by an underscore) in the output directory, with pixel dimensions
1400 by 1400. -/
theorem c1_preview_single_file (o : Oracles) (files : String → Bool)
    (h1 : files "fonts/spacegrotesk.ttf" = true)
    (h2 : files "fonts/inter.ttf" = true)
    (h3 : o.loads "fonts/spacegrotesk.ttf" = true)
    (h4 : o.loads "fonts/inter.ttf" = true) :
    create_font_preview o files "SpaceGrotesk" "Inter" "fonts"
        "font_previews" =
      ([LogEntry.created "font_previews/spacegrotesk_inter.png"],
       [("font_previews/spacegrotesk_inter.png", 1400, 1400)]) := by
  have hok : previewOk o files "fonts" "SpaceGrotesk" "Inter" = true := by
    unfold previewOk
    rw [show fontPathOf "fonts" "SpaceGrotesk" = "fonts/spacegrotesk.ttf"
          from rfl,
        show fontPathOf "fonts" "Inter" = "fonts/inter.ttf" from rfl,
        h1, h2, h3, h4]
    rfl
  rw [create_font_preview_ok o files "SpaceGrotesk" "Inter" "fonts"
      "font_previews" hok]
  rfl

/-- Oracle for witnesses: every font loads, the network always fails. -/
def oAll : Oracles :=
  { loads := fun _ => true, cssOf := fun _ => none, ttfOf := fun _ => none }

/-- World state for witnesses: every file exists, no requests made yet. -/
def stAll : St := { files := fun _ => true, requests := 0 }

/-- C1 witness: the theorem applied to the all-files-present world. -/
theorem c1_preview_single_file_witness :
    create_font_preview oAll stAll.files "SpaceGrotesk" "Inter" "fonts"
        "font_previews" =
      ([LogEntry.created "font_previews/spacegrotesk_inter.png"],
       [("font_previews/spacegrotesk_inter.png", 1400, 1400)]) :=
  c1_preview_single_file oAll stAll.files rfl rfl rfl rfl

/-- A pair whose reduced preview fails makes the comparison loop abort. -/
theorem comparison_loop_fail (o : Oracles) :
    ∀ l : List (String × String), ∀ p ∈ l,
      (create_preview_for_comparison o p.1 p.2 1400 1000).2 = none →
      (comparison_loop o l).2 = false := by
  intro l
  induction l with
  | nil => intro p hp _; simp at hp
  | cons q rest ih =>
    obtain ⟨qh, qb⟩ := q
    intro p hp hnone
    rcases hc : create_preview_for_comparison o qh qb 1400 1000 with ⟨ls, pv⟩
    rcases List.mem_cons.1 hp with rfl | hmem
    · dsimp only at hnone
      rw [hc] at hnone
      dsimp only at hnone
      subst hnone
      simp [comparison_loop, hc]
    · cases pv with
      | none => simp [comparison_loop, hc]
      | some v =>
        have hrest := ih p hmem hnone
        simp [comparison_loop, hc, hrest]

/-- C5: if the reduced preview for any single pair fails (returns `None`),
the whole collage is aborted by the `paste(None)` exception:
`create_font_comparison` catches it, logs the comparison failure, and
writes no `font_comparison.png` at all — even for pairs that drew
successfully. -/
theorem c5_comparison_aborts (o : Oracles) (files : String → Bool)
    (p : String × String) (hp : p ∈ font_pairs)
    (hfail : (create_preview_for_comparison o p.1 p.2 1400 1000).2 =
      none) :
    (create_font_comparison o files).2 = [] ∧
    LogEntry.comparisonError ∈ (create_font_comparison o files).1 := by
  have hloop := comparison_loop_fail o font_pairs p hp hfail
  unfold create_font_comparison
  cases hinter : (files (osJoin "fonts" "inter.ttf") &&
      o.loads (osJoin "fonts" "inter.ttf")) with
  | false => simp [hinter]
  | true => simp [hinter, hloop]

/-- Oracle for witnesses: `fonts/outfit.ttf` fails to load, everything
else loads, the network always fails. -/
def oFailOutfit : Oracles :=
  { loads := fun p => !(p == "fonts/outfit.ttf"),
    cssOf := fun _ => none, ttfOf := fun _ => none }

/-- C5 witness: with `fonts/outfit.ttf` broken, the (SpaceGrotesk, Outfit)
preview fails and no comparison collage is written. -/
theorem c5_comparison_aborts_witness :
    (create_font_comparison oFailOutfit stAll.files).2 = [] ∧
    LogEntry.comparisonError ∈
      (create_font_comparison oFailOutfit stAll.files).1 :=
  c5_comparison_aborts oFailOutfit stAll.files ("SpaceGrotesk", "Outfit")
    (by decide) (by decide)

/-- With a fully populated cache, `ensure_all_fonts` is a no-op that
reports success. -/
theorem ensure_all_fonts_cached (o : Oracles) (st : St)
    (hc : cachePopulated st.files) :
    ensure_all_fonts o st "fonts" = ((true, []), st) := by
  have h1 : st.files (osJoin "fonts" "spacegrotesk.ttf") = true :=
    hc ("SpaceGrotesk",
      "https://fonts.googleapis.com/css2?family=Space+Grotesk:wght@500&display=swap",
      "spacegrotesk.ttf") (by simp [fonts_data])
  have h2 : st.files (osJoin "fonts" "inter.ttf") = true :=
    hc ("Inter",
      "https://fonts.googleapis.com/css2?family=Inter&display=swap",
      "inter.ttf") (by simp [fonts_data])
  have h3 : st.files (osJoin "fonts" "outfit.ttf") = true :=
    hc ("Outfit",
      "https://fonts.googleapis.com/css2?family=Outfit&display=swap",
      "outfit.ttf") (by simp [fonts_data])
  have h4 : st.files (osJoin "fonts" "dmsans.ttf") = true :=
    hc ("DMSans",
      "https://fonts.googleapis.com/css2?family=DM+Sans&display=swap",
      "dmsans.ttf") (by simp [fonts_data])
  have h5 : st.files (osJoin "fonts" "publicsans.ttf") = true :=
    hc ("PublicSans",
      "https://fonts.googleapis.com/css2?family=Public+Sans&display=swap",
      "publicsans.ttf") (by simp [fonts_data])
  simp [ensure_all_fonts, fonts_data, h1, h2, h3, h4, h5]

/-- C8: `download_font` returns the cached path with no state change (in
particular no network request) whenever the file exists, and with a fully
populated cache `ensure_all_fonts` performs zero network requests, changes
nothing, and reports success with an empty missing-fonts list. -/
theorem c8_provisioning_idempotent :
    (∀ (o : Oracles) (st : St) (fonts_dir font_name : String) entry,
      lookupFont font_name = some entry →
      st.files (osJoin fonts_dir entry.2.2) = true →
      download_font o st fonts_dir font_name =
        (st, some (osJoin fonts_dir entry.2.2))) ∧
    (∀ (o : Oracles) (st : St), cachePopulated st.files →
      ensure_all_fonts o st "fonts" = ((true, []), st)) := by
  constructor
  · intro o st fonts_dir font_name entry hlook hex
    unfold download_font
    rw [hlook]
    simp [hex]
  · exact fun o st hc => ensure_all_fonts_cached o st hc

/-- C8 witness: with every file present, downloading `Inter` is a pure
cache hit and a second `ensure_all_fonts` run performs zero requests and
reports no missing fonts. -/
theorem c8_provisioning_idempotent_witness :
    download_font oAll stAll "fonts" "Inter" =
      (stAll, some "fonts/inter.ttf") ∧
    ensure_all_fonts oAll stAll "fonts" = ((true, []), stAll) ∧
    (ensure_all_fonts oAll stAll "fonts").2.requests = stAll.requests := by
  refine ⟨?_, ?_, ?_⟩
  · exact c8_provisioning_idempotent.1 oAll stAll "fonts" "Inter"
      ("Inter", "https://fonts.googleapis.com/css2?family=Inter&display=swap",
        "inter.ttf") (by decide) rfl
  · exact c8_provisioning_idempotent.2 oAll stAll (by decide)
  · rw [c8_provisioning_idempotent.2 oAll stAll (by decide)]

/-- Every file written by `create_font_preview` is the pair's 1400x1400
preview. -/
theorem create_font_preview_out_mem (o : Oracles) (files : String → Bool)
    (headline body fonts_dir output_dir : String) (x : OutFile)
    (hx : x ∈ (create_font_preview o files headline body fonts_dir
      output_dir).2) :
    x = (previewOutPath output_dir headline body, 1400, 1400) := by
  cases hok : previewOk o files fonts_dir headline body with
  | true =>
    rw [create_font_preview_ok o files headline body fonts_dir output_dir
      hok] at hx
    simpa using hx
  | false =>
    rw [create_font_preview_fail o files headline body fonts_dir output_dir
      hok] at hx
    simp at hx

/-- Every file written by `create_font_comparison` is the collage file. -/
theorem create_font_comparison_out_mem (o : Oracles)
    (files : String → Bool) (x : OutFile)
    (hx : x ∈ (create_font_comparison o files).2) :
    x.1 = osJoin "font_previews" "font_comparison.png" := by
  unfold create_font_comparison at hx
  cases hinter : (files (osJoin "fonts" "inter.ttf") &&
      o.loads (osJoin "fonts" "inter.ttf")) with
  | false =>
    rw [hinter] at hx
    simp at hx
  | true =>
    rw [hinter] at hx
    cases hloop : (comparison_loop o font_pairs).2 with
    | false =>
      simp only [hloop] at hx
      simp at hx
    | true =>
      simp only [hloop] at hx
      simp at hx
      rw [hx]

/-- Distinct pairs of the batch produce distinct output paths. -/
theorem previewOutPath_inj :
    ∀ p ∈ font_pairs, ∀ q ∈ font_pairs,
      previewOutPath "font_previews" p.1 p.2 =
        previewOutPath "font_previews" q.1 q.2 → p = q := by decide

/-- No pair's output path collides with the collage's path. -/
theorem previewOutPath_ne_comparison :
    ∀ p ∈ font_pairs,
      previewOutPath "font_previews" p.1 p.2 ≠
        osJoin "font_previews" "font_comparison.png" := by decide

/-- With a populated cache, the batch driver reduces to the per-pair
previews followed by the comparison collage. -/
theorem generate_all_previews_cached (o : Oracles) (st : St)
    (hc : cachePopulated st.files) :
    generate_all_previews o st =
      (st,
       (font_pairs.map (fun p => create_font_preview o st.files p.1 p.2
          "fonts" "font_previews")).flatMap Prod.fst ++
         (create_font_comparison o st.files).1,
       (font_pairs.map (fun p => create_font_preview o st.files p.1 p.2
          "fonts" "font_previews")).flatMap Prod.snd ++
         (create_font_comparison o st.files).2) := by
  unfold generate_all_previews
  rw [ensure_all_fonts_cached o st hc]
  rfl

/-- C4: a drawing-stage error for one pair is caught by
`create_font_preview`, which logs exactly one failure for that pair and
writes nothing; under a populated cache the batch driver still writes the
1400x1400 preview of every pair whose fonts exist and load, and writes no
file at all under the failing pair's output name. -/
theorem c4_failure_isolation :
    (∀ (o : Oracles) (files : String → Bool)
        (headline body fonts_dir output_dir : String),
      previewOk o files fonts_dir headline body = false →
      create_font_preview o files headline body fonts_dir output_dir =
        ([LogEntry.previewError headline body], [])) ∧
    (∀ (o : Oracles) (st : St), cachePopulated st.files →
      ∀ p ∈ font_pairs,
        (previewOk o st.files "fonts" p.1 p.2 = true →
          (previewOutPath "font_previews" p.1 p.2, (1400 : ℤ),
            (1400 : ℤ)) ∈ (generate_all_previews o st).2.2) ∧
        (previewOk o st.files "fonts" p.1 p.2 = false →
          ∀ w h : ℤ, (previewOutPath "font_previews" p.1 p.2, w, h) ∉
            (generate_all_previews o st).2.2)) := by
  constructor
  · exact fun o files headline body fonts_dir output_dir hfail =>
      create_font_preview_fail o files headline body fonts_dir output_dir
        hfail
  · intro o st hc p hp
    constructor
    · intro hok
      rw [generate_all_previews_cached o st hc]
      apply List.mem_append_left
      apply List.mem_flatMap.2
      refine ⟨create_font_preview o st.files p.1 p.2 "fonts"
        "font_previews", List.mem_map_of_mem _ hp, ?_⟩
      rw [create_font_preview_ok o st.files p.1 p.2 "fonts" "font_previews"
        hok]
      simp
    · intro hfail w h hmem
      rw [generate_all_previews_cached o st hc] at hmem
      rcases List.mem_append.1 hmem with hin | hin
      · rcases List.mem_flatMap.1 hin with ⟨res, hres, hx⟩
        rcases List.mem_map.1 hres with ⟨q, hq, rfl⟩
        have hxeq := create_font_preview_out_mem o st.files q.1 q.2 "fonts"
          "font_previews" _ hx
        have hpq : previewOutPath "font_previews" p.1 p.2 =
            previewOutPath "font_previews" q.1 q.2 :=
          congrArg Prod.fst hxeq
        have hqp : p = q := previewOutPath_inj p hp q hq hpq
        subst hqp
        rw [create_font_preview_fail o st.files p.1 p.2 "fonts"
          "font_previews" hfail] at hx
        simp at hx
      · exact previewOutPath_ne_comparison p hp
          (create_font_comparison_out_mem o st.files _ hin)

/-- C4 witness: with `fonts/outfit.ttf` present but failing to load, the
(SpaceGrotesk, Outfit) preview fails with a single logged failure and no
file, while the (SpaceGrotesk, Inter) preview is still written by the
batch driver. -/
theorem c4_failure_isolation_witness :
    create_font_preview oFailOutfit stAll.files "SpaceGrotesk" "Outfit"
        "fonts" "font_previews" =
      ([LogEntry.previewError "SpaceGrotesk" "Outfit"], []) ∧
    ("font_previews/spacegrotesk_inter.png", (1400 : ℤ), (1400 : ℤ)) ∈
      (generate_all_previews oFailOutfit stAll).2.2 ∧
    ∀ w h : ℤ, ("font_previews/spacegrotesk_outfit.png", w, h) ∉
      (generate_all_previews oFailOutfit stAll).2.2 :=
  ⟨c4_failure_isolation.1 oFailOutfit stAll.files "SpaceGrotesk" "Outfit"
      "fonts" "font_previews" (by decide),
   (c4_failure_isolation.2 oFailOutfit stAll (by decide)
      ("SpaceGrotesk", "Inter") (by decide)).1 (by decide),
   fun w h => (c4_failure_isolation.2 oFailOutfit stAll (by decide)
      ("SpaceGrotesk", "Outfit") (by decide)).2 (by decide) w h⟩

end FontPairing
